import Mathlib

/-!
Shallow embedding of the water-depth monitor's wake-cycle scheduler,
transmission-retry engine and persistent-state logic
(src/circuitpython: main.py, power_manager.py, satellite.py,
storage_manager.py, time_manager.py, config.py).

Conventions of the embedding:
* Python floats that only ever hold decimal constants and ADC-derived
  values are modelled as rationals (`ℚ`); `time.monotonic()` values are
  modelled as an explicit `now : Int` parameter in seconds.
* Python strings are kept as Lean `String` except for satellite message
  bodies, which are modelled as `List Char` (`PyStr`) so that the
  distinction between character count (`len(message)` / slicing) and
  UTF-8 byte count (`len(message.encode())`) is explicit.
* Stateful hardware interaction is modelled by explicit state passing
  plus an event trace; the environment (link outcomes, signal quality,
  battery voltage, current local time) is a parameter.
-/

/-! ### config.py -/

/-- `TRANSMISSION_TIMES` from config.py: daily slots 05:00 and 13:00. -/
def TRANSMISSION_TIMES : List (Nat × Nat) := [(5, 0), (13, 0)]

/-- `MAX_RETRY_ATTEMPTS` from config.py. -/
def MAX_RETRY_ATTEMPTS : Nat := 3

/-- `RETRY_BACKOFF_MINUTES` from config.py: progressive backoff schedule. -/
def RETRY_BACKOFF_MINUTES : List Nat := [5, 15, 30]

/-- `LOW_BATTERY_THRESHOLD` from config.py (3.2 V). -/
def LOW_BATTERY_THRESHOLD : ℚ := 16 / 5

/-! ### power_manager.py -/

/-- The four values `check_battery_status` can put in `"recommendation"`. -/
inductive Recommendation
  | normal
  | monitor_closely
  | conserve_power
  | emergency_shutdown
deriving DecidableEq

/-- The dict returned by `PowerManager.check_battery_status`. -/
structure BatteryStatus where
  voltage : ℚ
  is_low : Bool
  percentage : Int
  recommendation : Recommendation
deriving DecidableEq

/-- `PowerManager._estimate_battery_percentage`: linear interpolation
between 3.0 V (empty) and 4.2 V (full), truncated to an integer and
clamped to [0, 100]; non-positive voltage reads as 0. -/
def estimate_battery_percentage (voltage : ℚ) : Int :=
  if voltage ≤ 0 then 0
  else if (21 : ℚ) / 5 ≤ voltage then 100
  else if voltage ≤ 3 then 0
  else max 0 (min 100 (Int.floor ((voltage - 3) / (6 / 5) * 100)))

/-- `PowerManager.check_battery_status` for a successful voltage read:
`read_battery_voltage` sets `is_low_battery := voltage < LOW_BATTERY_THRESHOLD`
and the thresholds 3.0 V / 3.2 V (both strict `<`) pick the recommendation. -/
def check_battery_status (voltage : ℚ) : BatteryStatus :=
  let is_low : Bool := decide (voltage < LOW_BATTERY_THRESHOLD)
  let recommendation :=
    if is_low then
      if voltage < 3 then Recommendation.emergency_shutdown
      else if voltage < LOW_BATTERY_THRESHOLD then Recommendation.conserve_power
      else Recommendation.monitor_closely
    else Recommendation.normal
  ⟨voltage, is_low, estimate_battery_percentage voltage, recommendation⟩

/-- `PowerManager.should_skip_transmission`: skip on `emergency_shutdown`
or `conserve_power`. -/
def should_skip_transmission (status : BatteryStatus) : Bool × String :=
  if status.recommendation = Recommendation.emergency_shutdown then
    (true, "Critical low battery - emergency shutdown")
  else if status.recommendation = Recommendation.conserve_power then
    (true, "Low battery - conserving power")
  else (false, "")

/-- `PowerManager.should_force_sleep` (predicate part): true iff the wake
duration strictly exceeds `max_wake_duration = 300` seconds.  The source
also formats a reason string containing the duration, which the embedding
omits. -/
def should_force_sleep (wake_duration : ℚ) : Bool :=
  decide (300 < wake_duration)

/-! ### time_manager.py -/

/-- Loop body of `TimeManager.is_transmission_time`: walk the configured
slots and return the first whose circular minutes-distance from the
current time is within the tolerance.  `cur_total` is
`current_hour * 60 + current_minute`. -/
def findSlot (cur_total : Int) (tol : Nat) : List (Nat × Nat) → Option (Nat × Nat)
  | [] => none
  | (h, m) :: rest =>
      let d0 : Nat := (cur_total - ((h : Int) * 60 + (m : Int))).natAbs
      let d : Nat := if 720 < d0 then 1440 - d0 else d0
      if d ≤ tol then some (h, m) else findSlot cur_total tol rest

/-- `TimeManager.is_transmission_time`: given the current Pacific local
time (`ch:cm`) and the tolerance in minutes, report whether any configured
slot matches and which one. -/
def is_transmission_time (ch cm tol : Nat) : Bool × Option (Nat × Nat) :=
  match findSlot ((ch : Int) * 60 + (cm : Int)) tol TRANSMISSION_TIMES with
  | some slot => (true, some slot)
  | none => (false, none)

/-- The circular minutes-distance used by `is_transmission_time`. -/
def minutesDiffAdj (ch cm th tm : Nat) : Nat :=
  let d0 : Nat := (((ch : Int) * 60 + cm) - ((th : Int) * 60 + tm)).natAbs
  if 720 < d0 then 1440 - d0 else d0

/-! ### storage_manager.py : state record and its operations -/

/-- One element of `state["failed_attempts"]` (the `attempt_record` dict
built in `record_transmission_attempt`). -/
structure AttemptRecord where
  time_slot : String
  timestamp : Int
  success : Bool
  error : String
deriving DecidableEq

/-- The parts of the persisted state record that
`record_transmission_attempt` / `get_pending_transmissions` read or
write: the slot-id → monotonic-timestamp success map (a Python dict,
modelled as an insertion-ordered association list) and the bounded
failed-attempt history. -/
structure SysState where
  last_successful_transmissions : List (String × Int)
  failed_attempts : List AttemptRecord
deriving DecidableEq

/-- Python `dict.get(slot, 0)` on the success map. -/
def lookupSuccess (m : List (String × Int)) (slot : String) : Int :=
  ((m.find? fun p => p.1 == slot).map Prod.snd).getD 0

/-- Python `d[k] = v` on an insertion-ordered dict: replace the existing
entry in place, or append a new one. -/
def setKey (m : List (String × Int)) (k : String) (v : Int) : List (String × Int) :=
  match m with
  | [] => [(k, v)]
  | p :: rest => if p.1 == k then (k, v) :: rest else p :: setKey rest k v

/-- `l[-n:]` for Python lists: the suffix of the last `n` elements
(the whole list when it is shorter than `n`). -/
def takeLast (n : Nat) (l : List AttemptRecord) : List AttemptRecord :=
  l.drop (l.length - n)

/-- `f"{h:02d}"`: two-digit zero padding (all configured values are < 24). -/
def pad2 (n : Nat) : String :=
  if n < 10 then "0" ++ toString n else toString n

/-- The canonical slot-id string `f"{hour:02d}:{minute:02d}"`. -/
def slotString (h m : Nat) : String := pad2 h ++ ":" ++ pad2 m

/-- `StorageManager.record_transmission_attempt`: on success, store the
monotonic timestamp in the success map and purge all failed attempts for
that slot; on failure, append the attempt record and keep only the last
10 records.  `now` is the `time.monotonic()` value read at entry. -/
def record_transmission_attempt (state : SysState) (time_slot : String)
    (success : Bool) (error_message : String) (now : Int) : SysState :=
  if success then
    ⟨setKey state.last_successful_transmissions time_slot now,
      state.failed_attempts.filter fun a => a.time_slot != time_slot⟩
  else
    let fa := state.failed_attempts ++ [⟨time_slot, now, success, error_message⟩]
    ⟨state.last_successful_transmissions,
      if 10 < fa.length then fa.drop (fa.length - 10) else fa⟩

/-- Iterated failed-attempt recording: one `record_transmission_attempt`
call with `success = False` per item `(slot, error, now)`. -/
def recordFailures (state : SysState) : List (String × String × Int) → SysState
  | [] => state
  | (slot, err, now) :: rest =>
      recordFailures (record_transmission_attempt state slot false err now) rest

/-- One element of the list returned by `get_pending_transmissions`. -/
structure PendingEntry where
  time_slot : String
  retry_count : Nat
  last_attempt : Option AttemptRecord
deriving DecidableEq

/-- The retry-window filter of `get_pending_transmissions`: failed
attempts for this slot whose monotonic timestamp is within the last
6 hours. -/
def recentFailuresFor (state : SysState) (now : Int) (slot : String) : List AttemptRecord :=
  state.failed_attempts.filter fun a =>
    a.time_slot == slot && decide (now - a.timestamp < 6 * 3600)

/-- Per-slot body of the loop in `get_pending_transmissions`.
`now` is `time.monotonic()`; `ch:cm` is the current Pacific time seen by
the `is_transmission_time` re-check.  A slot with a successful
transmission within the last 12 hours (missing entries default to
timestamp 0) is skipped; otherwise recent failures make it a retry;
otherwise it is newly pending iff `is_transmission_time()` — a check
against ANY configured slot — currently reports true. -/
def pendingFor (state : SysState) (now : Int) (ch cm : Nat)
    (hm : Nat × Nat) : Option PendingEntry :=
  let time_slot := slotString hm.1 hm.2
  let last_success := lookupSuccess state.last_successful_transmissions time_slot
  if now - last_success < 12 * 3600 then none
  else
    let recent_failures := recentFailuresFor state now time_slot
    if recent_failures.isEmpty then
      if (is_transmission_time ch cm 5).1 then some ⟨time_slot, 0, none⟩ else none
    else
      some ⟨time_slot, recent_failures.length, recent_failures.getLast?⟩

/-- `StorageManager.get_pending_transmissions`. -/
def get_pending_transmissions (state : SysState) (now : Int) (ch cm : Nat) :
    List PendingEntry :=
  TRANSMISSION_TIMES.filterMap (pendingFor state now ch cm)

/-! ### satellite.py : the bounded-retry transmitter -/

/-- Python strings as sequences of code points (message bodies). -/
abbrev PyStr := List Char

/-- `len(message.encode())`: the UTF-8 byte length of a Python string. -/
def encodedLen (s : PyStr) : Nat := (s.map fun c => c.utf8Size).sum

/-- The `"..."` marker appended by the length truncation. -/
def truncMarker : PyStr := ['.', '.', '.']

/-- The length guard at the top of `SatelliteModem.send_message`: a
message whose encoded byte length exceeds 340 is replaced by its first
337 characters (Python slicing counts characters, not bytes) plus the
3-character marker. -/
def truncate_340 (message : PyStr) : PyStr :=
  if 340 < encodedLen message then message.take 337 ++ truncMarker else message

/-- The deterministic environment behind the RockBlock link: the result
of the n-th `initialize()` call (wrapping wake-up, library construction
and the communication self-test), the n-th signal-quality query and the
n-th `text_message` send. -/
structure LinkEnv where
  initOk : Nat → Bool
  quality : Nat → Int
  sendOk : Nat → Bool

/-- The mutable modem state: the `is_initialized` flag plus call counters
indexing into the environment. -/
structure ModemState where
  inited : Bool
  initCalls : Nat
  qualCalls : Nat
  sendCalls : Nat
deriving DecidableEq

/-- A fresh modem state whose `is_initialized` flag is `b`. -/
def mkModem (b : Bool) : ModemState := ⟨b, 0, 0, 0⟩

/-- Observable actions of the transmitter. `sleepSec` are the plain
`time.sleep` calls inside `initialize` (1 s wake-up + 2 s settle);
`cooldownSleep` is the fixed 30 s poor-signal wait; `backoffSleep` is a
progressive-schedule wait, in minutes. -/
inductive SatEvent
  | initCall (ok : Bool)
  | qualityCheck (q : Int)
  | send (msg : PyStr) (ok : Bool)
  | sleepSec (d : Nat)
  | cooldownSleep (d : Nat)
  | backoffSleep (minutes : Nat)
deriving DecidableEq

/-- `SatelliteModem.initialize`: 1 s wake-up sleep, 2 s settle sleep,
then the library init + communication test whose combined outcome the
environment decides; sets `is_initialized` on success. -/
def initModem (env : LinkEnv) (st : ModemState) : Bool × ModemState × List SatEvent :=
  let ok := env.initOk st.initCalls
  (ok, ⟨ok || st.inited, st.initCalls + 1, st.qualCalls, st.sendCalls⟩,
    [SatEvent.sleepSec 1, SatEvent.sleepSec 2, SatEvent.initCall ok])

/-- One `rockblock.signal_quality` read. -/
def queryQuality (env : LinkEnv) (st : ModemState) : Int × ModemState × List SatEvent :=
  let q := env.quality st.qualCalls
  (q, ⟨st.inited, st.initCalls, st.qualCalls + 1, st.sendCalls⟩, [SatEvent.qualityCheck q])

/-- `SatelliteModem.get_signal_quality`: initialize first if needed,
returning -1 if that fails, else read the signal quality. -/
def get_signal_quality (env : LinkEnv) (st : ModemState) : Int × ModemState × List SatEvent :=
  if st.inited then queryQuality env st
  else
    let ini := initModem env st
    if ini.1 then
      let gq := queryQuality env ini.2.1
      (gq.1, gq.2.1, ini.2.2 ++ gq.2.2)
    else (-1, ini.2.1, ini.2.2)

/-- One `rockblock.text_message(message)` call. -/
def doSend (env : LinkEnv) (st : ModemState) (msg : PyStr) : Bool × ModemState × List SatEvent :=
  let ok := env.sendOk st.sendCalls
  (ok, ⟨st.inited, st.initCalls, st.qualCalls, st.sendCalls + 1⟩, [SatEvent.send msg ok])

/-- The `(success, attempt_count, error_message)` triple returned by
`send_message`. -/
structure SendResult where
  success : Bool
  attempts : Nat
  error : String
deriving DecidableEq

/-- The attempt loop of `SatelliteModem.send_message`: `r` attempts
remain, `i` is the 0-based index of the current attempt (`i + r = maxA`
throughout a run).  Each iteration: ensure the link is initialized
(an init failure consumes the attempt and `continue`s with no backoff),
check signal quality (strictly below 1 consumes the attempt, sleeps a
fixed 30 s and `continue`s with no backoff), then send; a confirmed send
returns immediately with the 1-based attempt count, and a refused send
falls through to the progressive backoff, which runs only when this is
not the final attempt. -/
def sendAttempts (env : LinkEnv) (msg : PyStr) (maxA : Nat) :
    Nat → Nat → ModemState → String → SendResult × ModemState × List SatEvent
  | 0, _, st, lastErr => (⟨false, maxA, lastErr⟩, st, [])
  | r + 1, i, st, _lastErr =>
      let ini := if st.inited then (true, st, ([] : List SatEvent)) else initModem env st
      if ini.1 then
        let gq := get_signal_quality env ini.2.1
        if gq.1 < 1 then
          let rest := sendAttempts env msg maxA r (i + 1) gq.2.1
            ("Poor signal quality: " ++ toString gq.1)
          (rest.1, rest.2.1,
            ini.2.2 ++ gq.2.2 ++ [SatEvent.cooldownSleep 30] ++ rest.2.2)
        else
          let snd := doSend env gq.2.1 msg
          if snd.1 then
            (⟨true, i + 1, ""⟩, snd.2.1, ini.2.2 ++ gq.2.2 ++ snd.2.2)
          else
            let bo : List SatEvent :=
              if i + 1 < maxA then
                [SatEvent.backoffSleep
                  (RETRY_BACKOFF_MINUTES.getD (min i (RETRY_BACKOFF_MINUTES.length - 1)) 0)]
              else []
            let rest := sendAttempts env msg maxA r (i + 1) snd.2.1
              "RockBlock reported send failure"
            (rest.1, rest.2.1, ini.2.2 ++ gq.2.2 ++ snd.2.2 ++ bo ++ rest.2.2)
      else
        let rest := sendAttempts env msg maxA r (i + 1) ini.2.1
          "Failed to initialize RockBlock"
        (rest.1, rest.2.1, ini.2.2 ++ rest.2.2)

/-- `SatelliteModem.send_message`: reject an empty message with zero
attempts, truncate an over-long one, then run the attempt loop. -/
def send_message (env : LinkEnv) (st : ModemState) (message : PyStr) (max_attempts : Nat) :
    SendResult × ModemState × List SatEvent :=
  if message = [] then (⟨false, 0, "Empty message"⟩, st, [])
  else sendAttempts env (truncate_340 message) max_attempts max_attempts 0 st ""

/-- The dict built by `SatelliteModem.send_data_reading` (its `message`
and `timestamp` echo fields are omitted). -/
structure ReadingResult where
  success : Bool
  attempts : Nat
  error : String
  signal_quality : Int
deriving DecidableEq

/-- `SatelliteModem.send_data_reading`: send the formatted message with
`MAX_RETRY_ATTEMPTS` retries, then fill `signal_quality` with a fresh
`get_signal_quality()` observation made after the attempt loop returns.
The numeric rendering inside `format_data_message` is outside the
embedding; `message` stands for its output. -/
def send_data_reading (env : LinkEnv) (st : ModemState) (message : PyStr) :
    ReadingResult × ModemState × List SatEvent :=
  let sm := send_message env st message MAX_RETRY_ATTEMPTS
  let gq := get_signal_quality env sm.2.1
  (⟨sm.1.success, sm.1.attempts, sm.1.error, gq.1⟩, gq.2.1, sm.2.2 ++ gq.2.2)

/-- The duration, in seconds, an event spends in `time.sleep`. -/
def sleepDuration : SatEvent → Nat
  | SatEvent.sleepSec d => d
  | SatEvent.cooldownSleep d => d
  | SatEvent.backoffSleep minutes => minutes * 60
  | _ => 0

/-- The last signal-quality value observed in a trace. -/
def lastQuality (evs : List SatEvent) : Option Int :=
  (evs.filterMap fun e =>
    match e with
    | SatEvent.qualityCheck q => some q
    | _ => none).getLast?

/-- Whether an event is a progressive-backoff sleep. -/
def isBackoff : SatEvent → Bool
  | SatEvent.backoffSleep _ => true
  | _ => false

/-- Whether an event is a `text_message` send. -/
def isSendEv : SatEvent → Bool
  | SatEvent.send _ _ => true
  | _ => false

/-! ### main.py : the wake cycle -/

/-- Observable actions of one wake cycle (`main()`).  `doneSignal` is one
100 ms done-pulse to the TPL5110 from `PowerManager.signal_done`. -/
inductive CycleEvent
  | doneSignal
  | errorBlink
  | sensorRead
  | transmitAttempt
  | logReading
  | logSkip
  | saveState
deriving DecidableEq

/-- The environment of one wake cycle: whether the steps up to and
including `PowerManager()` construction succeed, the battery voltage
read, whether some later step of the body raises an exception (modelled
at the start of the post-battery-check body; no body step emits a done
signal, so the position does not affect signal counts), whether the SD
card mounts, the loaded state, the monotonic clock and the current
Pacific local time. -/
structure CycleEnv where
  powerInitOk : Bool
  voltage : ℚ
  bodyRaises : Bool
  storageOk : Bool
  state : SysState
  now : Int
  hour : Nat
  minute : Nat

/-- `main()` as an event trace.  The `try` body: battery check, then
either the emergency short-circuit (`handle_emergency_shutdown` signals
done, then `return` — which still runs the `finally` block), or the
normal body (transmission decision, sensor/transmission work, state
save), or the exception handler (error blink).  The `finally` block
signals done whenever `power_mgr` was constructed; if `PowerManager()`
itself raised, `power_mgr` is `None` and no done signal is ever sent. -/
def runCycle (env : CycleEnv) : List CycleEvent :=
  if !env.powerInitOk then []
  else
    let status := check_battery_status env.voltage
    let body :=
      if status.recommendation = Recommendation.emergency_shutdown then
        [CycleEvent.doneSignal]
      else if env.bodyRaises then
        [CycleEvent.errorBlink]
      else
        let is_tx := is_transmission_time env.hour env.minute 5
        let pending :=
          if env.storageOk then get_pending_transmissions env.state env.now env.hour env.minute
          else []
        let should_transmit := is_tx.1 || !pending.isEmpty
        let work :=
          if should_transmit then
            if (should_skip_transmission status).1 then
              if env.storageOk then [CycleEvent.logSkip] else []
            else
              [CycleEvent.sensorRead, CycleEvent.transmitAttempt] ++
                (if env.storageOk then [CycleEvent.sensorRead, CycleEvent.logReading] else [])
          else
            [CycleEvent.sensorRead] ++
              (if env.storageOk then [CycleEvent.logReading] else [])
        work ++ (if env.storageOk then [CycleEvent.saveState] else [])
    body ++ [CycleEvent.doneSignal]

/-! ### Helper lemmas -/

/-- Dropping then appending: splitting a drop across an append. -/
theorem drop_append_le {α : Type} (xs ys : List α) (n : Nat) (h : n ≤ xs.length) :
    (xs ++ ys).drop n = xs.drop n ++ ys :=
  List.drop_append_of_le_length h

/-- `takeLast` of a concatenation ending in a long list only sees that list. -/
theorem takeLast_append_of_le (xs ys : List AttemptRecord) (n : Nat)
    (h : n ≤ ys.length) : takeLast n (xs ++ ys) = takeLast n ys := by
  unfold takeLast
  have hlen : (xs ++ ys).length - n = xs.length + (ys.length - n) := by
    simp [List.length_append]; omega
  rw [hlen, ← List.drop_drop, drop_append_le xs ys xs.length (le_refl _)]
  simp

/-- Re-capping an already capped history is the same as capping once. -/
theorem takeLast_takeLast_append (xs ys : List AttemptRecord) (n : Nat) :
    takeLast n (takeLast n xs ++ ys) = takeLast n (xs ++ ys) := by
  by_cases hxn : xs.length ≤ n
  · have hx : takeLast n xs = xs := by
      have h0 : xs.length - n = 0 := by omega
      unfold takeLast
      rw [h0, List.drop_zero]
    rw [hx]
  · unfold takeLast
    simp only [List.length_append, List.length_drop]
    have h1 : xs.length - (xs.length - n) + ys.length - n = ys.length := by omega
    have h2 : xs.length + ys.length - n = (xs.length - n) + ys.length := by omega
    have h3 : List.drop (xs.length - n) (xs ++ ys) = List.drop (xs.length - n) xs ++ ys :=
      List.drop_append_of_le_length (by omega)
    rw [h1, h2, ← List.drop_drop, h3]

/-- A failed `record_transmission_attempt` is exactly: append one record,
keep the last 10. -/
theorem record_failure_eq (s : SysState) (slot err : String) (now : Int) :
    record_transmission_attempt s slot false err now =
      ⟨s.last_successful_transmissions,
        takeLast 10 (s.failed_attempts ++ [⟨slot, now, false, err⟩])⟩ := by
  simp only [record_transmission_attempt, takeLast, Bool.false_eq_true, ↓reduceIte]
  split
  · rfl
  · next h =>
    have h0 : (s.failed_attempts ++ [(⟨slot, now, false, err⟩ : AttemptRecord)]).length - 10 = 0 := by
      simp only [List.length_append, List.length_singleton] at h ⊢
      omega
    rw [h0, List.drop_zero]

/-! ### Claim C1 -/

/-- C1, corrected.  For every cycle in which `PowerManager()` construction
succeeds, the done signal to the external timer is emitted at least once,
even when an exception is raised in the cycle body — but not always
exactly once: on every non-emergency path (including the exception path)
it is emitted exactly once, while on the emergency-shutdown short-circuit
path `handle_emergency_shutdown` signals done and the `finally` block then
signals done a second time, for exactly two emissions. -/
theorem c1_done_signal_count (env : CycleEnv) (hp : env.powerInitOk = true) :
    (runCycle env).count CycleEvent.doneSignal =
      (if (check_battery_status env.voltage).recommendation =
          Recommendation.emergency_shutdown then 2 else 1) := by
  simp only [runCycle, hp, Bool.not_true, Bool.false_eq_true, if_false, ↓reduceIte]
  split
  · rfl
  · split
    · rfl
    · split_ifs <;> simp [List.count_append]

/-- Witness for C1: a healthy-battery cycle emits the done signal once. -/
theorem c1_done_signal_count_witness :
    (⟨true, 4, false, true, ⟨[], []⟩, 0, 5, 0⟩ : CycleEnv).powerInitOk = true ∧
    (runCycle ⟨true, 4, false, true, ⟨[], []⟩, 0, 5, 0⟩).count CycleEvent.doneSignal =
      (if (check_battery_status (4 : ℚ)).recommendation =
          Recommendation.emergency_shutdown then 2 else 1) :=
  ⟨rfl, c1_done_signal_count ⟨true, 4, false, true, ⟨[], []⟩, 0, 5, 0⟩ rfl⟩

/-- Counterexample to C1 as stated: at battery voltage 2.9 V the
emergency-shutdown short-circuit path emits the done signal twice
(once from `handle_emergency_shutdown`, once from the `finally` block),
not exactly once. -/
theorem c1_done_signal_counterexample :
    (runCycle ⟨true, 29 / 10, false, true, ⟨[], []⟩, 0, 5, 0⟩).count
      CycleEvent.doneSignal = 2 := by
  have h1 : (29 / 10 : ℚ) < 16 / 5 := by norm_num
  have h2 : (29 / 10 : ℚ) < 3 := by norm_num
  have hrec : (check_battery_status (29 / 10)).recommendation =
      Recommendation.emergency_shutdown := by
    simp [check_battery_status, LOW_BATTERY_THRESHOLD, h1, h2]
  simp only [runCycle, Bool.not_true, Bool.false_eq_true, if_false, ↓reduceIte]
  rw [if_pos hrec]
  rfl

/-! ### Claim C2 -/

/-- C2, corrected.  The emergency-shutdown threshold is strict: every
voltage reading strictly below 3.0 V yields
`recommendation = emergency_shutdown`, and such a cycle performs no
sensor read and no transmission attempt while still issuing the terminal
done signal; a reading of exactly 3.0 V instead yields
`recommendation = conserve_power` (the cycle proceeds, with transmission
skipped by battery policy). -/
theorem c2_emergency_at_low_voltage (v : ℚ) (hv : v < 3) (env : CycleEnv)
    (hp : env.powerInitOk = true) (he : env.voltage = v) :
    (check_battery_status v).recommendation = Recommendation.emergency_shutdown ∧
    CycleEvent.sensorRead ∉ runCycle env ∧
    CycleEvent.transmitAttempt ∉ runCycle env ∧
    CycleEvent.doneSignal ∈ runCycle env ∧
    (check_battery_status 3).recommendation = Recommendation.conserve_power := by
  have h16 : v < LOW_BATTERY_THRESHOLD := by
    unfold LOW_BATTERY_THRESHOLD
    calc v < 3 := hv
      _ < 16 / 5 := by norm_num
  have hrec : (check_battery_status v).recommendation = Recommendation.emergency_shutdown := by
    simp [check_battery_status, h16, hv]
  have hcycle : runCycle env = [CycleEvent.doneSignal, CycleEvent.doneSignal] := by
    simp only [runCycle, hp, Bool.not_true, Bool.false_eq_true, if_false, ↓reduceIte, he]
    rw [if_pos hrec]
    rfl
  have hboundary : (check_battery_status 3).recommendation =
      Recommendation.conserve_power := by
    have h1 : (3 : ℚ) < 16 / 5 := by norm_num
    have h2 : ¬ ((3 : ℚ) < 3) := by norm_num
    simp [check_battery_status, LOW_BATTERY_THRESHOLD, h1, h2]
  refine ⟨hrec, ?_, ?_, ?_, hboundary⟩
  · rw [hcycle]; decide
  · rw [hcycle]; decide
  · rw [hcycle]; decide

/-- Witness for C2: at 2.9 V the amended behaviour is exhibited. -/
theorem c2_emergency_at_low_voltage_witness :
    (29 / 10 : ℚ) < 3 ∧
    ((check_battery_status (29 / 10)).recommendation = Recommendation.emergency_shutdown ∧
     CycleEvent.sensorRead ∉ runCycle ⟨true, 29 / 10, false, true, ⟨[], []⟩, 0, 5, 0⟩ ∧
     CycleEvent.transmitAttempt ∉ runCycle ⟨true, 29 / 10, false, true, ⟨[], []⟩, 0, 5, 0⟩ ∧
     CycleEvent.doneSignal ∈ runCycle ⟨true, 29 / 10, false, true, ⟨[], []⟩, 0, 5, 0⟩ ∧
     (check_battery_status 3).recommendation = Recommendation.conserve_power) :=
  ⟨by norm_num,
    c2_emergency_at_low_voltage (29 / 10) (by norm_num)
      ⟨true, 29 / 10, false, true, ⟨[], []⟩, 0, 5, 0⟩ rfl rfl⟩

/-- Counterexample to C2 as stated: at exactly 3.0 V the recommendation
is `conserve_power`, not `emergency_shutdown` (the threshold comparison
`voltage < 3.0` is strict). -/
theorem c2_battery_boundary_counterexample :
    (check_battery_status 3).recommendation = Recommendation.conserve_power ∧
    (check_battery_status 3).recommendation ≠ Recommendation.emergency_shutdown := by
  have h1 : (3 : ℚ) < 16 / 5 := by norm_num
  have h2 : ¬ ((3 : ℚ) < 3) := by norm_num
  simp [check_battery_status, LOW_BATTERY_THRESHOLD, h1, h2]

/-! ### Claim C8 -/

/-- Looking up a key right after setting it returns the new value. -/
theorem lookupSuccess_setKey (m : List (String × Int)) (k : String) (v : Int) :
    lookupSuccess (setKey m k v) k = v := by
  induction m with
  | nil => simp [setKey, lookupSuccess, List.find?]
  | cons p rest ih =>
      by_cases h : p.1 == k
      · simp [setKey, h, lookupSuccess, List.find?]
      · simp only [setKey, h, Bool.false_eq_true, if_false, ↓reduceIte]
        simpa [lookupSuccess, List.find?, h] using ih

/-- The failure history after a whole block of failed recordings is the
capped concatenation (stated for a non-empty block, since with no
recording an oversized prior history would remain untouched). -/
theorem recordFailures_failed_attempts (it : String × String × Int)
    (rest : List (String × String × Int)) :
    ∀ s : SysState, (recordFailures s (it :: rest)).failed_attempts =
      takeLast 10 (s.failed_attempts ++
        (it :: rest).map fun x => (⟨x.1, x.2.2, false, x.2.1⟩ : AttemptRecord)) := by
  induction rest generalizing it with
  | nil =>
      intro s
      simp only [recordFailures, List.map_cons, List.map_nil]
      rw [record_failure_eq]
  | cons it2 rest2 ih =>
      intro s
      have step : recordFailures s (it :: it2 :: rest2) =
          recordFailures (record_transmission_attempt s it.1 false it.2.1 it.2.2) (it2 :: rest2) := rfl
      rw [step, ih, record_failure_eq]
      simp only [SysState.mk.injEq]
      rw [takeLast_takeLast_append, List.append_assoc]
      simp

/-- C8, confirmed.  `record_transmission_attempt` maintains the state
invariant: recording a success for a slot purges every failed-attempt
record for that slot and updates the success-map entry to the new
monotonic timestamp; recording a failure appends exactly one record and
caps the history at the 10 most recent (so the history never exceeds 10
records), and recording more than 10 failures in a row leaves exactly the
10 most recent of them. -/
theorem c8_record_invariants :
    (∀ (s : SysState) (slot err : String) (now : Int),
      (∀ r ∈ (record_transmission_attempt s slot true err now).failed_attempts,
        r.time_slot ≠ slot) ∧
      lookupSuccess
        (record_transmission_attempt s slot true err now).last_successful_transmissions
        slot = now) ∧
    (∀ (s : SysState) (slot err : String) (now : Int),
      (record_transmission_attempt s slot false err now).failed_attempts =
        takeLast 10 (s.failed_attempts ++ [⟨slot, now, false, err⟩]) ∧
      (record_transmission_attempt s slot false err now).failed_attempts.length ≤ 10) ∧
    (∀ (s : SysState) (items : List (String × String × Int)), 10 < items.length →
      (recordFailures s items).failed_attempts =
        takeLast 10 (items.map fun x => (⟨x.1, x.2.2, false, x.2.1⟩ : AttemptRecord)) ∧
      (recordFailures s items).failed_attempts.length = 10) := by
  refine ⟨?_, ?_, ?_⟩
  · intro s slot err now
    constructor
    · intro r hr
      have hmem : r ∈ s.failed_attempts.filter fun a => a.time_slot != slot := by
        simpa [record_transmission_attempt] using hr
      have := List.of_mem_filter hmem
      simpa [bne_iff_ne] using this
    · simp only [record_transmission_attempt, if_pos rfl, ↓reduceIte]
      exact lookupSuccess_setKey _ _ _
  · intro s slot err now
    rw [record_failure_eq]
    refine ⟨rfl, ?_⟩
    unfold takeLast
    simp only [List.length_drop]
    omega
  · intro s items hlen
    match items, hlen with
    | it :: rest, hlen =>
      rw [recordFailures_failed_attempts it rest s]
      have hmaplen : 10 ≤ ((it :: rest).map fun x =>
          (⟨x.1, x.2.2, false, x.2.1⟩ : AttemptRecord)).length := by
        rw [List.length_map]
        simpa using Nat.le_of_lt hlen
      rw [takeLast_append_of_le _ _ _ hmaplen]
      refine ⟨rfl, ?_⟩
      unfold takeLast
      simp only [List.length_drop, List.length_map] at *
      omega

/-- Witness for C8: recording 11 failures in a row starting from the
empty state leaves exactly the 10 most recent records. -/
theorem c8_record_invariants_witness :
    10 < ([("05:00", "e", (0 : Int)), ("05:00", "e", 1), ("05:00", "e", 2),
           ("05:00", "e", 3), ("05:00", "e", 4), ("05:00", "e", 5),
           ("05:00", "e", 6), ("05:00", "e", 7), ("05:00", "e", 8),
           ("05:00", "e", 9), ("13:00", "f", 10)] :
            List (String × String × Int)).length ∧
    ((recordFailures ⟨[], []⟩
        [("05:00", "e", (0 : Int)), ("05:00", "e", 1), ("05:00", "e", 2),
         ("05:00", "e", 3), ("05:00", "e", 4), ("05:00", "e", 5),
         ("05:00", "e", 6), ("05:00", "e", 7), ("05:00", "e", 8),
         ("05:00", "e", 9), ("13:00", "f", 10)]).failed_attempts =
      takeLast 10 (([("05:00", "e", (0 : Int)), ("05:00", "e", 1), ("05:00", "e", 2),
         ("05:00", "e", 3), ("05:00", "e", 4), ("05:00", "e", 5),
         ("05:00", "e", 6), ("05:00", "e", 7), ("05:00", "e", 8),
         ("05:00", "e", 9), ("13:00", "f", 10)].map
           fun x => (⟨x.1, x.2.2, false, x.2.1⟩ : AttemptRecord))) ∧
     (recordFailures ⟨[], []⟩
        [("05:00", "e", (0 : Int)), ("05:00", "e", 1), ("05:00", "e", 2),
         ("05:00", "e", 3), ("05:00", "e", 4), ("05:00", "e", 5),
         ("05:00", "e", 6), ("05:00", "e", 7), ("05:00", "e", 8),
         ("05:00", "e", 9), ("13:00", "f", 10)]).failed_attempts.length = 10) :=
  ⟨by decide,
    c8_record_invariants.2.2 ⟨[], []⟩
      [("05:00", "e", (0 : Int)), ("05:00", "e", 1), ("05:00", "e", 2),
       ("05:00", "e", 3), ("05:00", "e", 4), ("05:00", "e", 5),
       ("05:00", "e", 6), ("05:00", "e", 7), ("05:00", "e", 8),
       ("05:00", "e", 9), ("13:00", "f", 10)] (by decide)⟩

/-! ### Pending-resolver helper lemmas -/

/-- The capped history after appending a record still ends with it. -/
theorem getLast?_takeLast_concat (xs : List AttemptRecord) (a : AttemptRecord) :
    (takeLast 10 (xs ++ [a])).getLast? = some a := by
  unfold takeLast
  have hk : (xs ++ [a]).length - 10 ≤ xs.length := by
    simp only [List.length_append, List.length_singleton]
    omega
  rw [List.drop_append_of_le_length hk, List.getLast?_concat]

/-- Every entry produced by the per-slot resolver carries that slot's id. -/
theorem pendingFor_slot (s : SysState) (now : Int) (ch cm : Nat) (hm : Nat × Nat)
    (e : PendingEntry) (h : pendingFor s now ch cm hm = some e) :
    e.time_slot = slotString hm.1 hm.2 := by
  simp only [pendingFor] at h
  split_ifs at h <;> simp_all
  · rw [← h]
  · rw [← h]

/-- The two configured slots have distinct canonical slot-id strings. -/
theorem slotString_inj_on_TT :
    ∀ a ∈ TRANSMISSION_TIMES, ∀ b ∈ TRANSMISSION_TIMES,
      slotString a.1 a.2 = slotString b.1 b.2 → a = b := by decide

/-- Membership in the pending list, for an entry carrying a configured
slot's id, is exactly what the per-slot resolver says for that slot. -/
theorem mem_pending_iff (s : SysState) (now : Int) (ch cm H M : Nat)
    (hmem : (H, M) ∈ TRANSMISSION_TIMES) (e : PendingEntry)
    (hslot : e.time_slot = slotString H M) :
    e ∈ get_pending_transmissions s now ch cm ↔
      pendingFor s now ch cm (H, M) = some e := by
  constructor
  · intro he
    rcases List.mem_filterMap.mp he with ⟨hm, hmm, hsome⟩
    have hs := pendingFor_slot s now ch cm hm e hsome
    have heq : hm = (H, M) :=
      slotString_inj_on_TT hm hmm (H, M) hmem (by rw [← hs, ← hslot])
    rwa [heq] at hsome
  · intro h
    exact List.mem_filterMap.mpr ⟨(H, M), hmem, h⟩

/-- A slot whose last recorded success is inside the 12 h freshness
window produces no pending entry. -/
theorem pending_excludes_fresh (s : SysState) (now : Int) (ch cm H M : Nat)
    (hmem : (H, M) ∈ TRANSMISSION_TIMES)
    (hfresh : now - lookupSuccess s.last_successful_transmissions (slotString H M) <
      12 * 3600) :
    ∀ e ∈ get_pending_transmissions s now ch cm, e.time_slot ≠ slotString H M := by
  intro e he heq
  have h := (mem_pending_iff s now ch cm H M hmem e heq).mp he
  simp only [pendingFor] at h
  rw [if_pos hfresh] at h
  exact Option.noConfusion h

/-- In a timestamp-sorted list, every element is bounded by the last. -/
theorem pairwise_timestamp_getLast :
    ∀ (l : List AttemptRecord),
      List.Pairwise (fun a b => a.timestamp ≤ b.timestamp) l →
      ∀ r ∈ l, ∀ last ∈ l.getLast?, r.timestamp ≤ last.timestamp
  | [], _, r, hr, _, _ => by simp at hr
  | [a], _, r, hr, last, hlast => by
      simp only [List.mem_singleton] at hr
      simp only [List.getLast?_singleton, Option.mem_def, Option.some.injEq] at hlast
      rw [hr, ← hlast]
  | a :: b :: t, hp, r, hr, last, hlast => by
      rw [List.getLast?_cons_cons] at hlast
      rcases List.mem_cons.mp hr with rfl | hr2
      · have hlastmem : last ∈ b :: t := by
          rcases List.mem_getLast?_eq_getLast hlast with ⟨h, rfl⟩
          exact List.getLast_mem h
        exact (List.pairwise_cons.mp hp).1 last hlastmem
      · exact pairwise_timestamp_getLast (b :: t) (List.pairwise_cons.mp hp).2 r hr2 last hlast

/-! ### Claim C3 -/

/-- C3, confirmed.  Both resolver windows are measured against the same
monotonic clock value (`now`, the embedding of `time.monotonic()`, which
restarts at 0 on every boot): a slot with no entry in
`last_successful_transmissions` defaults to last-success timestamp 0, so
whenever `now < 12*3600` the freshness test `now - 0 < 12*3600` holds and
the slot is excluded from the pending set entirely — for every state,
including states with recent failed attempts, and at every current local
time, including times inside the tolerance window.  The timestamps
persisted by `record_transmission_attempt` are the same monotonic-clock
values (`ts` below), hence not comparable across power cycles. -/
theorem c3_monotonic_default_exclusion (s : SysState) (now : Int) (ch cm H M : Nat)
    (hmem : (H, M) ∈ TRANSMISSION_TIMES)
    (hnone : s.last_successful_transmissions.find?
      (fun p => p.1 == slotString H M) = none)
    (h0 : 0 ≤ now) (hlt : now < 12 * 3600) :
    (∀ e ∈ get_pending_transmissions s now ch cm, e.time_slot ≠ slotString H M) ∧
    (∀ (slot err : String) (ts : Int),
      (record_transmission_attempt s slot false err ts).failed_attempts.getLast? =
        some ⟨slot, ts, false, err⟩) := by
  constructor
  · have hzero : lookupSuccess s.last_successful_transmissions (slotString H M) = 0 := by
      simp [lookupSuccess, hnone]
    exact pending_excludes_fresh s now ch cm H M hmem (by rw [hzero]; omega)
  · intro slot err ts
    rw [record_failure_eq]
    exact getLast?_takeLast_concat _ _

/-- Witness for C3: at monotonic time 41000 s (< 12 h after boot) the
05:00 slot is excluded even though it has a failed attempt 1000 s old and
the local time 05:00 is inside the tolerance window. -/
theorem c3_monotonic_default_exclusion_witness :
    ((5, 0) ∈ TRANSMISSION_TIMES ∧
     (⟨[], [⟨"05:00", 40000, false, "e"⟩]⟩ :
        SysState).last_successful_transmissions.find?
          (fun p => p.1 == slotString 5 0) = none ∧
     (0 : Int) ≤ 41000 ∧ (41000 : Int) < 12 * 3600) ∧
    (∀ e ∈ get_pending_transmissions ⟨[], [⟨"05:00", 40000, false, "e"⟩]⟩ 41000 5 0,
      e.time_slot ≠ slotString 5 0) :=
  ⟨⟨by decide, by decide, by decide, by decide⟩,
    (c3_monotonic_default_exclusion ⟨[], [⟨"05:00", 40000, false, "e"⟩]⟩ 41000 5 0 5 0
      (by decide) (by decide) (by decide) (by decide)).1⟩

/-! ### Claim C9 -/

/-- C9, confirmed.  For every state and monotonic time: a configured slot
whose recorded success lies strictly within the last 12 hours is excluded
from the pending set; otherwise, the failure records counted for it are
exactly those within the strict 6-hour retry window (so an attempt 5 h 59 m
old counts and one 6 h 1 m old does not), and when any exist the slot is
pending with `retry_count` the number of such records and `last_attempt`
the last of them — which, when the stored history is ordered by timestamp
(as `record_transmission_attempt` maintains under the monotonic clock),
is the most recent one. -/
theorem c9_freshness_and_retry_windows (s : SysState) (now : Int) (ch cm H M : Nat)
    (hmem : (H, M) ∈ TRANSMISSION_TIMES) :
    (now - lookupSuccess s.last_successful_transmissions (slotString H M) < 12 * 3600 →
      ∀ e ∈ get_pending_transmissions s now ch cm, e.time_slot ≠ slotString H M) ∧
    (∀ a : AttemptRecord, a.time_slot = slotString H M →
      (a ∈ recentFailuresFor s now (slotString H M) ↔
        a ∈ s.failed_attempts ∧ now - a.timestamp < 6 * 3600)) ∧
    (12 * 3600 ≤ now - lookupSuccess s.last_successful_transmissions (slotString H M) →
      recentFailuresFor s now (slotString H M) ≠ [] →
      (⟨slotString H M, (recentFailuresFor s now (slotString H M)).length,
        (recentFailuresFor s now (slotString H M)).getLast?⟩ : PendingEntry) ∈
        get_pending_transmissions s now ch cm) ∧
    (List.Pairwise (fun a b => a.timestamp ≤ b.timestamp) s.failed_attempts →
      ∀ r ∈ recentFailuresFor s now (slotString H M),
        ∀ last ∈ (recentFailuresFor s now (slotString H M)).getLast?,
          r.timestamp ≤ last.timestamp) := by
  refine ⟨pending_excludes_fresh s now ch cm H M hmem, ?_, ?_, ?_⟩
  · intro a ha
    simp [recentFailuresFor, List.mem_filter, ha]
  · intro hstale hne
    rw [mem_pending_iff s now ch cm H M hmem _ rfl]
    simp only [pendingFor]
    rw [if_neg (by omega), if_neg (by simpa [List.isEmpty_iff] using hne)]
  · intro hsorted r hr last hlast
    have hsub : (recentFailuresFor s now (slotString H M)).Sublist s.failed_attempts :=
      List.filter_sublist _
    exact pairwise_timestamp_getLast _ (List.Pairwise.sublist hsub hsorted) r hr last hlast

/-- Witness for C9: with a success for 13:00 recorded 11 h ago and two
failures for 05:00 recorded 5 h 59 m and 6 h 1 m ago, the 13:00 slot is
excluded, only the 5 h 59 m failure counts, and 05:00 is pending as a
retry with count 1 referencing that record. -/
theorem c9_freshness_and_retry_windows_witness :
    ((5, 0) ∈ TRANSMISSION_TIMES ∧
     (12 * 3600 : Int) ≤ 100000 - lookupSuccess [("13:00", 60400)] (slotString 5 0) ∧
     recentFailuresFor
       ⟨[("13:00", 60400)],
        [⟨"05:00", 78340, false, "e"⟩, ⟨"05:00", 78460, false, "e"⟩]⟩
       100000 (slotString 5 0) ≠ []) ∧
    ((⟨slotString 5 0,
        (recentFailuresFor
          ⟨[("13:00", 60400)],
           [⟨"05:00", 78340, false, "e"⟩, ⟨"05:00", 78460, false, "e"⟩]⟩
          100000 (slotString 5 0)).length,
        (recentFailuresFor
          ⟨[("13:00", 60400)],
           [⟨"05:00", 78340, false, "e"⟩, ⟨"05:00", 78460, false, "e"⟩]⟩
          100000 (slotString 5 0)).getLast?⟩ : PendingEntry) ∈
      get_pending_transmissions
        ⟨[("13:00", 60400)],
         [⟨"05:00", 78340, false, "e"⟩, ⟨"05:00", 78460, false, "e"⟩]⟩
        100000 5 0) ∧
    recentFailuresFor
      ⟨[("13:00", 60400)],
       [⟨"05:00", 78340, false, "e"⟩, ⟨"05:00", 78460, false, "e"⟩]⟩
      100000 (slotString 5 0) = [⟨"05:00", 78460, false, "e"⟩] :=
  ⟨⟨by decide, by decide, by decide⟩,
    (c9_freshness_and_retry_windows
      ⟨[("13:00", 60400)],
       [⟨"05:00", 78340, false, "e"⟩, ⟨"05:00", 78460, false, "e"⟩]⟩
      100000 5 0 5 0 (by decide)).2.2.1 (by decide) (by decide),
    by decide⟩

/-! ### Claim C4 -/

/-- C4, corrected.  In the newly-pending branch the resolver calls
`is_transmission_time()` with no reference to the slot under
consideration: a configured slot with no recent success and no recent
failures is marked newly pending if and only if the current time is
within the tolerance window of SOME configured slot — not necessarily
that slot.  In particular a slot outside its own window is marked newly
pending whenever another slot's window matches. -/
theorem c4_newly_pending_global_time_check (s : SysState) (now : Int) (ch cm H M : Nat)
    (hmem : (H, M) ∈ TRANSMISSION_TIMES)
    (hstale : ¬ (now - lookupSuccess s.last_successful_transmissions (slotString H M) <
      12 * 3600))
    (hnofail : recentFailuresFor s now (slotString H M) = []) :
    ((⟨slotString H M, 0, none⟩ : PendingEntry) ∈
        get_pending_transmissions s now ch cm) ↔
      (is_transmission_time ch cm 5).1 = true := by
  rw [mem_pending_iff s now ch cm H M hmem _ rfl]
  simp only [pendingFor]
  rw [if_neg hstale, if_pos (by simp [hnofail])]
  by_cases htx : (is_transmission_time ch cm 5).1 = true
  · simp [htx]
  · simp [htx]

/-- Witness for C4 (amended): at local time 13:02 (inside the 13:00
window, far outside the 05:00 window) the unsatisfied 05:00 slot is newly
pending, because the resolver's time check is global. -/
theorem c4_newly_pending_global_time_check_witness :
    ((5, 0) ∈ TRANSMISSION_TIMES ∧
     ¬ ((50000 : Int) - lookupSuccess ([] : List (String × Int)) (slotString 5 0) <
        12 * 3600) ∧
     recentFailuresFor ⟨[], []⟩ 50000 (slotString 5 0) = []) ∧
    ((⟨slotString 5 0, 0, none⟩ : PendingEntry) ∈
      get_pending_transmissions ⟨[], []⟩ 50000 13 2) :=
  ⟨⟨by decide, by decide, by decide⟩,
    (c4_newly_pending_global_time_check ⟨[], []⟩ 50000 13 2 5 0
      (by decide) (by decide) (by decide)).mpr (by decide)⟩

/-- Counterexample to C4 as stated: at Pacific time 13:02 the slot 05:00
is 482 circular minutes away from the current time — far outside the
5-minute tolerance window — yet the resolver marks it newly pending
(retry count 0, no last attempt), because `is_transmission_time` matched
the other slot, 13:00. -/
theorem c4_newly_pending_counterexample :
    (⟨slotString 5 0, 0, none⟩ : PendingEntry) ∈
      get_pending_transmissions ⟨[], []⟩ 50000 13 2 ∧
    minutesDiffAdj 13 2 5 0 = 482 ∧ ¬ (minutesDiffAdj 13 2 5 0 ≤ 5) ∧
    (is_transmission_time 13 2 5).2 = some (13, 0) := by decide

/-! ### Claim C10 -/

/-- UTF-8 byte length distributes over concatenation. -/
theorem encodedLen_append (xs ys : PyStr) :
    encodedLen (xs ++ ys) = encodedLen xs + encodedLen ys := by
  simp [encodedLen]

/-- For single-byte (ASCII) content the byte length is the character count. -/
theorem encodedLen_all_one (xs : PyStr) (h : ∀ c ∈ xs, c.utf8Size = 1) :
    encodedLen xs = xs.length := by
  induction xs with
  | nil => rfl
  | cons c rest ih =>
      have hc : c.utf8Size = 1 := h c (by simp)
      have hrest : encodedLen rest = rest.length := ih fun d hd => h d (by simp [hd])
      simp [encodedLen] at hrest ⊢
      omega

/-- `initialize` emits no send event. -/
theorem send_not_in_initModem (env : LinkEnv) (st : ModemState) (m : PyStr) (ok : Bool) :
    SatEvent.send m ok ∉ (initModem env st).2.2 := by
  simp [initModem]

/-- `get_signal_quality` emits no send event. -/
theorem send_not_in_getquality (env : LinkEnv) (st : ModemState) (m : PyStr) (ok : Bool) :
    SatEvent.send m ok ∉ (get_signal_quality env st).2.2 := by
  by_cases hst : st.inited
  · simp [get_signal_quality, hst, queryQuality]
  · by_cases hok : env.initOk st.initCalls
    · simp [get_signal_quality, hst, hok, initModem, queryQuality]
    · simp [get_signal_quality, hst, hok, initModem]

/-- Every send event emitted by the attempt loop carries the loop's
message argument. -/
theorem sendAttempts_send_msg (env : LinkEnv) (msg : PyStr) (maxA : Nat) :
    ∀ (r i : Nat) (st : ModemState) (le : String) (m : PyStr) (ok : Bool),
      SatEvent.send m ok ∈ (sendAttempts env msg maxA r i st le).2.2 → m = msg := by
  intro r
  induction r with
  | zero =>
      intro i st le m ok h
      simp [sendAttempts] at h
  | succ r ih =>
      intro i st le m ok h
      simp only [sendAttempts] at h
      by_cases hst : st.inited
      · simp only [hst, if_true, ↓reduceIte] at h
        by_cases hq : (get_signal_quality env st).1 < 1
        · simp only [if_pos hq] at h
          rcases List.mem_append.mp h with h2 | h2
          · rcases List.mem_append.mp h2 with h3 | h3
            · rcases List.mem_append.mp h3 with h4 | h4
              · simp at h4
              · exact absurd h4 (send_not_in_getquality env st m ok)
            · simp at h3
          · exact ih (i + 1) _ _ m ok h2
        · simp only [if_neg hq] at h
          by_cases hs : (doSend env (get_signal_quality env st).2.1 msg).1
          · simp only [if_pos hs] at h
            rcases List.mem_append.mp h with h2 | h2
            · rcases List.mem_append.mp h2 with h3 | h3
              · simp at h3
              · exact absurd h3 (send_not_in_getquality env st m ok)
            · simp [doSend] at h2
              exact h2.1
          · simp only [if_neg hs] at h
            rcases List.mem_append.mp h with h2 | h2
            · rcases List.mem_append.mp h2 with h3 | h3
              · rcases List.mem_append.mp h3 with h4 | h4
                · rcases List.mem_append.mp h4 with h5 | h5
                  · simp at h5
                  · exact absurd h5 (send_not_in_getquality env st m ok)
                · simp [doSend] at h4
                  exact h4.1
              · split at h3 <;> simp at h3
            · exact ih (i + 1) _ _ m ok h2
      · simp only [hst, if_false, Bool.false_eq_true, ↓reduceIte] at h
        by_cases hok : (initModem env st).1
        · simp only [if_pos hok] at h
          by_cases hq : (get_signal_quality env (initModem env st).2.1).1 < 1
          · simp only [if_pos hq] at h
            rcases List.mem_append.mp h with h2 | h2
            · rcases List.mem_append.mp h2 with h3 | h3
              · rcases List.mem_append.mp h3 with h4 | h4
                · exact absurd h4 (send_not_in_initModem env st m ok)
                · exact absurd h4 (send_not_in_getquality env _ m ok)
              · simp at h3
            · exact ih (i + 1) _ _ m ok h2
          · simp only [if_neg hq] at h
            by_cases hs : (doSend env (get_signal_quality env (initModem env st).2.1).2.1 msg).1
            · simp only [if_pos hs] at h
              rcases List.mem_append.mp h with h2 | h2
              · rcases List.mem_append.mp h2 with h3 | h3
                · exact absurd h3 (send_not_in_initModem env st m ok)
                · exact absurd h3 (send_not_in_getquality env _ m ok)
              · simp [doSend] at h2
                exact h2.1
            · simp only [if_neg hs] at h
              rcases List.mem_append.mp h with h2 | h2
              · rcases List.mem_append.mp h2 with h3 | h3
                · rcases List.mem_append.mp h3 with h4 | h4
                  · rcases List.mem_append.mp h4 with h5 | h5
                    · exact absurd h5 (send_not_in_initModem env st m ok)
                    · exact absurd h5 (send_not_in_getquality env _ m ok)
                  · simp [doSend] at h4
                    exact h4.1
                · split at h3 <;> simp at h3
              · exact ih (i + 1) _ _ m ok h2
        · simp only [if_neg hok] at h
          rcases List.mem_append.mp h with h2 | h2
          · exact absurd h2 (send_not_in_initModem env st m ok)
          · exact ih (i + 1) _ _ m ok h2

/-- C10, corrected.  An over-long message is truncated to its first 337
CHARACTERS (Python slicing counts code points, not bytes) plus the
3-character marker, so the result is at most 340 characters — which
bounds the transmitted message to 340 bytes only when every character is
single-byte (ASCII, as the telemetry format produces); for multi-byte
content the transmitted bytes can still exceed 340.  An empty message is
rejected with a failure result and zero attempts, and every message the
loop hands to the link is exactly the truncated message. -/
theorem c10_truncation (m : PyStr) :
    (340 < encodedLen m →
      truncate_340 m = m.take 337 ++ truncMarker ∧ (truncate_340 m).length ≤ 340) ∧
    ((∀ c ∈ m, c.utf8Size = 1) → encodedLen (truncate_340 m) ≤ 340) ∧
    (∀ (env : LinkEnv) (st : ModemState) (maxA : Nat),
      send_message env st [] maxA = (⟨false, 0, "Empty message"⟩, st, [])) ∧
    (∀ (env : LinkEnv) (st : ModemState) (maxA : Nat) (m2 : PyStr) (ok : Bool),
      SatEvent.send m2 ok ∈ (send_message env st m maxA).2.2 → m2 = truncate_340 m) := by
  refine ⟨?_, ?_, ?_, ?_⟩
  · intro hlong
    have ht : truncate_340 m = m.take 337 ++ truncMarker := by
      simp [truncate_340, hlong]
    refine ⟨ht, ?_⟩
    rw [ht]
    simp only [List.length_append, List.length_take, truncMarker, List.length_cons,
      List.length_nil]
    omega
  · intro hascii
    by_cases hlong : 340 < encodedLen m
    · have ht : truncate_340 m = m.take 337 ++ truncMarker := by
        simp [truncate_340, hlong]
      rw [ht, encodedLen_append]
      have h1 : encodedLen (m.take 337) = (m.take 337).length :=
        encodedLen_all_one _ fun c hc => hascii c (List.take_subset 337 m hc)
      have h2 : encodedLen truncMarker = 3 := by decide
      rw [h1, h2, List.length_take]
      omega
    · have ht : truncate_340 m = m := by
        simp [truncate_340, hlong]
      rw [ht]
      omega
  · intro env st maxA
    simp [send_message]
  · intro env st maxA m2 ok h
    by_cases hm : m = []
    · subst hm
      simp [send_message] at h
    · simp only [send_message, hm, if_false, ↓reduceIte] at h
      exact sendAttempts_send_msg env (truncate_340 m) maxA maxA 0 st "" m2 ok h

set_option maxRecDepth 8192 in
/-- Witness for C10: a 341-character ASCII message is truncated to 337
characters plus the marker and stays within 340 bytes. -/
theorem c10_truncation_witness :
    340 < encodedLen (List.replicate 341 'a') ∧
    truncate_340 (List.replicate 341 'a') =
      (List.replicate 341 'a').take 337 ++ truncMarker ∧
    (truncate_340 (List.replicate 341 'a')).length ≤ 340 ∧
    encodedLen (truncate_340 (List.replicate 341 'a')) ≤ 340 :=
  ⟨by decide,
    ((c10_truncation (List.replicate 341 'a')).1 (by decide)).1,
    ((c10_truncation (List.replicate 341 'a')).1 (by decide)).2,
    (c10_truncation (List.replicate 341 'a')).2.1 (by decide)⟩

set_option maxRecDepth 8192 in
/-- Counterexample to C10 as stated: 171 two-byte characters encode to
342 bytes (> 340), but the truncation keeps the first 337 CHARACTERS —
all 171 of them — plus the marker, so the message handed to the link
still encodes to 345 bytes, exceeding the 340-byte transport limit.
The decision procedure evaluates the 171-character message, hence the
raised recursion depth. -/
theorem c10_truncation_counterexample :
    340 < encodedLen (List.replicate 171 'é') ∧
    340 < encodedLen (truncate_340 (List.replicate 171 'é')) := by decide

/-! ### Attempt-loop scenario lemmas -/

/-- When every `initialize()` call fails, each attempt is consumed by the
init-failure `continue`: no signal check, no send, and — decisively — no
backoff sleep of any kind between attempts; the loop just burns its
attempts (each costing only the 3 s of init-internal sleeps) and returns
failure with the init error. -/
theorem sendAttempts_all_init_fail (env : LinkEnv) (msg : PyStr) (maxA : Nat)
    (hinit : ∀ n, env.initOk n = false) :
    ∀ (r i : Nat) (st : ModemState) (le : String), st.inited = false →
      sendAttempts env msg maxA r i st le =
        (⟨false, maxA, if r = 0 then le else "Failed to initialize RockBlock"⟩,
          ⟨false, st.initCalls + r, st.qualCalls, st.sendCalls⟩,
          List.flatten (List.replicate r
            [SatEvent.sleepSec 1, SatEvent.sleepSec 2, SatEvent.initCall false])) := by
  intro r
  induction r with
  | zero =>
      intro i st le hst
      cases st
      simp_all [sendAttempts]
  | succ r ih =>
      intro i st le hst
      have hin := hinit st.initCalls
      have hrec := ih (i + 1) ⟨false, st.initCalls + 1, st.qualCalls, st.sendCalls⟩
        "Failed to initialize RockBlock" rfl
      simp only [sendAttempts, hst, initModem, hin, Bool.false_eq_true, if_false,
        Bool.false_or, ↓reduceIte] at hrec ⊢
      rw [hrec]
      simp only [List.replicate_succ, List.flatten_cons]
      have harith : st.initCalls + 1 + r = st.initCalls + (r + 1) := by omega
      rw [harith]
      simp [ite_self]

/-- When the link is initialized but every signal-quality reading is
below 1, each attempt is consumed by the poor-signal `continue`: the loop
sleeps the fixed 30 s cooldown after each reading and never reaches the
progressive backoff (and never sends). -/
theorem sendAttempts_all_poor_signal (env : LinkEnv) (msg : PyStr) (maxA : Nat)
    (hq : ∀ n, env.quality n < 1) :
    ∀ (r i : Nat) (st : ModemState) (le : String), st.inited = true →
      (sendAttempts env msg maxA r i st le).1.success = false ∧
      (sendAttempts env msg maxA r i st le).1.attempts = maxA ∧
      (sendAttempts env msg maxA r i st le).2.2 =
        List.flatten ((List.range' st.qualCalls r).map fun n =>
          [SatEvent.qualityCheck (env.quality n), SatEvent.cooldownSleep 30]) := by
  intro r
  induction r with
  | zero =>
      intro i st le hst
      simp [sendAttempts]
  | succ r ih =>
      intro i st le hst
      have hqn := hq st.qualCalls
      have hrec := ih (i + 1) ⟨st.inited, st.initCalls, st.qualCalls + 1, st.sendCalls⟩
        ("Poor signal quality: " ++ toString (env.quality st.qualCalls)) hst
      simp only [sendAttempts, hst, if_true, ↓reduceIte, get_signal_quality,
        queryQuality, hqn, if_pos] at hrec ⊢
      rw [List.range'_succ]
      simp only [List.map_cons, List.flatten_cons]
      refine ⟨hrec.1, hrec.2.1, ?_⟩
      rw [hrec.2.2]
      rfl

/-- When the link is initialized, signal quality is always acceptable and
every send is refused, the loop performs exactly one quality check and
one send per attempt, with the progressive backoff (5 then 15 minutes for
the default schedule) after every non-final attempt, and exhausts with
the send-failure error. -/
theorem sendAttempts_all_refused (env : LinkEnv) (msg : PyStr) (maxA : Nat)
    (hq : ∀ n, 1 ≤ env.quality n) (hs : ∀ n, env.sendOk n = false) :
    ∀ (r i : Nat) (st : ModemState) (le : String),
      st.inited = true → st.qualCalls = i → st.sendCalls = i →
      sendAttempts env msg maxA r i st le =
        (⟨false, maxA, if r = 0 then le else "RockBlock reported send failure"⟩,
          ⟨true, st.initCalls, i + r, i + r⟩,
          List.flatten ((List.range' i r).map fun n =>
            [SatEvent.qualityCheck (env.quality n), SatEvent.send msg false] ++
              (if n + 1 < maxA then
                [SatEvent.backoffSleep
                  (RETRY_BACKOFF_MINUTES.getD
                    (min n (RETRY_BACKOFF_MINUTES.length - 1)) 0)]
               else []))) := by
  intro r
  induction r with
  | zero =>
      intro i st le hst hqc hsc
      cases st
      simp_all [sendAttempts]
  | succ r ih =>
      intro i st le hst hqc hsc
      have hqn : ¬ (env.quality st.qualCalls < 1) := not_lt.mpr (hq st.qualCalls)
      have hsn := hs st.sendCalls
      have hrec := ih (i + 1) ⟨st.inited, st.initCalls, st.qualCalls + 1, st.sendCalls + 1⟩
        "RockBlock reported send failure" hst (by simp [hqc]) (by simp [hsc])
      simp only [sendAttempts, hst, if_true, ↓reduceIte, get_signal_quality,
        queryQuality, doSend, hqn, hsn, Bool.false_eq_true, if_false] at hrec ⊢
      have h1 : i + 1 + r = i + (r + 1) := by omega
      rw [hrec, List.range'_succ]
      simp only [List.map_cons, List.flatten_cons, hqc, hsc, h1]
      simp [ite_self, List.append_assoc]

/-! ### Claim C5 -/

/-- C5, corrected.  The progressive backoff ([5, 15, 30] minutes indexed
by attempt and clamped) runs only after attempts that reach the send step
and fail, and never after the final attempt; it IS skipped for the two
`continue` failure causes: a link-initialization failure retries with no
backoff sleep at all, and a poor-signal attempt sleeps only the fixed
30 s cooldown instead of the progressive backoff.  With all three
attempts refused at the send step, exactly the 5- then 15-minute backoffs
occur. -/
theorem c5_backoff_schedule (env : LinkEnv) (msg : PyStr) (hne : msg ≠ [])
    (hshort : ¬ (340 < encodedLen msg)) :
    ((∀ n, env.initOk n = false) →
      (send_message env (mkModem false) msg 3).1 =
        ⟨false, 3, "Failed to initialize RockBlock"⟩ ∧
      (send_message env (mkModem false) msg 3).2.2.filter isBackoff = []) ∧
    ((∀ n, env.quality n < 1) →
      (send_message env (mkModem true) msg 3).1.success = false ∧
      (send_message env (mkModem true) msg 3).1.attempts = 3 ∧
      (send_message env (mkModem true) msg 3).2.2 =
        [SatEvent.qualityCheck (env.quality 0), SatEvent.cooldownSleep 30,
         SatEvent.qualityCheck (env.quality 1), SatEvent.cooldownSleep 30,
         SatEvent.qualityCheck (env.quality 2), SatEvent.cooldownSleep 30]) ∧
    ((∀ n, 1 ≤ env.quality n) → (∀ n, env.sendOk n = false) →
      (send_message env (mkModem true) msg 3).2.2 =
        [SatEvent.qualityCheck (env.quality 0), SatEvent.send msg false,
         SatEvent.backoffSleep 5,
         SatEvent.qualityCheck (env.quality 1), SatEvent.send msg false,
         SatEvent.backoffSleep 15,
         SatEvent.qualityCheck (env.quality 2), SatEvent.send msg false]) := by
  have hsm : ∀ st : ModemState,
      send_message env st msg 3 = sendAttempts env msg 3 3 0 st "" := by
    intro st
    simp [send_message, hne, truncate_340, hshort]
  refine ⟨?_, ?_, ?_⟩
  · intro hinit
    rw [hsm]
    rw [sendAttempts_all_init_fail env msg 3 hinit 3 0 (mkModem false) "" rfl]
    exact ⟨rfl, rfl⟩
  · intro hq
    rw [hsm]
    have h := sendAttempts_all_poor_signal env msg 3 hq 3 0 (mkModem true) "" rfl
    refine ⟨h.1, h.2.1, ?_⟩
    rw [h.2.2]
    rfl
  · intro hq hs
    rw [hsm]
    rw [sendAttempts_all_refused env msg 3 hq hs 3 0 (mkModem true) "" rfl rfl rfl]
    rfl

/-- Witness for C5: with a link whose initialization always fails, the
loop exhausts all 3 attempts without a single progressive-backoff
sleep. -/
theorem c5_backoff_schedule_witness :
    (send_message ⟨fun _ => false, fun _ => 5, fun _ => true⟩
        (mkModem false) ['x'] 3).1 =
      ⟨false, 3, "Failed to initialize RockBlock"⟩ ∧
    (send_message ⟨fun _ => false, fun _ => 5, fun _ => true⟩
        (mkModem false) ['x'] 3).2.2.filter isBackoff = [] :=
  (c5_backoff_schedule ⟨fun _ => false, fun _ => 5, fun _ => true⟩ ['x']
    (by decide) (by decide)).1 fun _ => rfl

/-- Counterexample to C5 as stated: a link whose initialization always
fails consumes all 3 attempts (attempts_made = 3) with zero backoff
sleeps between them — the mandated progressive backoff is skipped by the
init-failure `continue`. -/
theorem c5_backoff_counterexample :
    (send_message ⟨fun _ => false, fun _ => 5, fun _ => true⟩
        (mkModem false) ['x'] 3).1.attempts = 3 ∧
    (send_message ⟨fun _ => false, fun _ => 5, fun _ => true⟩
        (mkModem false) ['x'] 3).2.2.countP isBackoff = 0 := by decide

/-! ### Claim C6 -/

/-- C6, corrected.  No elapsed-wake-time check exists in the attempt
loop: `send_message` commits to every scheduled backoff sleep regardless
of elapsed wake time, and the 300 s budget exists only as
`PowerManager.should_force_sleep` (true exactly when the wake duration
exceeds 300 s), which the loop never consults.  Concretely, in an
all-refused run starting uninitialized, the loop enters the 15-minute
backoff when its own sleeps already total 303 s > 300 s, and the result
carries the plain send-failure error, not a time-budget failure. -/
theorem c6_no_wake_budget_check (env : LinkEnv) (msg : PyStr) (hne : msg ≠ [])
    (hshort : ¬ (340 < encodedLen msg)) (hinit0 : env.initOk 0 = true)
    (hq : ∀ n, 1 ≤ env.quality n) (hs : ∀ n, env.sendOk n = false) :
    (∀ d : ℚ, should_force_sleep d = true ↔ 300 < d) ∧
    (send_message env (mkModem false) msg 3).2.2 =
      [SatEvent.sleepSec 1, SatEvent.sleepSec 2, SatEvent.initCall true,
       SatEvent.qualityCheck (env.quality 0), SatEvent.send msg false,
       SatEvent.backoffSleep 5,
       SatEvent.qualityCheck (env.quality 1), SatEvent.send msg false,
       SatEvent.backoffSleep 15,
       SatEvent.qualityCheck (env.quality 2), SatEvent.send msg false] ∧
    (((send_message env (mkModem false) msg 3).2.2.take 8).map sleepDuration).sum = 303 ∧
    should_force_sleep 303 = true ∧
    (send_message env (mkModem false) msg 3).2.2.getD 8 (SatEvent.sleepSec 0) =
      SatEvent.backoffSleep 15 ∧
    (send_message env (mkModem false) msg 3).1.error =
      "RockBlock reported send failure" := by
  have hsm : send_message env (mkModem false) msg 3 =
      sendAttempts env msg 3 3 0 (mkModem false) "" := by
    simp [send_message, hne, truncate_340, hshort]
  have hq0 : ¬ (env.quality 0 < 1) := not_lt.mpr (hq 0)
  have hs0 := hs 0
  have hrest := sendAttempts_all_refused env msg 3 hq hs 2 1 ⟨true, 1, 1, 1⟩
    "RockBlock reported send failure" rfl rfl rfl
  have hstep : ∀ r : Nat,
      sendAttempts env msg 3 (r + 1) 0 (mkModem false) "" =
        ((sendAttempts env msg 3 r 1 ⟨true, 1, 1, 1⟩ "RockBlock reported send failure").1,
          (sendAttempts env msg 3 r 1 ⟨true, 1, 1, 1⟩ "RockBlock reported send failure").2.1,
          [SatEvent.sleepSec 1, SatEvent.sleepSec 2, SatEvent.initCall true,
           SatEvent.qualityCheck (env.quality 0), SatEvent.send msg false,
           SatEvent.backoffSleep 5] ++
            (sendAttempts env msg 3 r 1 ⟨true, 1, 1, 1⟩
              "RockBlock reported send failure").2.2) := by
    intro r
    simp only [sendAttempts, mkModem, initModem, get_signal_quality, queryQuality,
      doSend, hinit0, hq0, hs0, Bool.false_eq_true, Bool.or_false, if_false, if_true,
      ↓reduceIte, Nat.zero_add]
    simp [RETRY_BACKOFF_MINUTES, List.getD]
  have h3 := hstep 2
  norm_num at h3
  have htrace : sendAttempts env msg 3 3 0 (mkModem false) "" =
      (⟨false, 3, "RockBlock reported send failure"⟩,
        ⟨true, 1, 3, 3⟩,
        [SatEvent.sleepSec 1, SatEvent.sleepSec 2, SatEvent.initCall true,
         SatEvent.qualityCheck (env.quality 0), SatEvent.send msg false,
         SatEvent.backoffSleep 5,
         SatEvent.qualityCheck (env.quality 1), SatEvent.send msg false,
         SatEvent.backoffSleep 15,
         SatEvent.qualityCheck (env.quality 2), SatEvent.send msg false]) := by
    rw [h3, hrest]
    simp [List.range', RETRY_BACKOFF_MINUTES, List.getD]
  refine ⟨fun d => by simp [should_force_sleep], ?_, ?_, ?_, ?_, ?_⟩
  · rw [hsm, htrace]
  · rw [hsm, htrace]
    simp [sleepDuration]
  · simp [should_force_sleep]
    norm_num
  · rw [hsm, htrace]
    rfl
  · rw [hsm, htrace]

/-- Witness for C6: with a link that initializes, reports good signal
and refuses every send, the second backoff is entered at 303 s of
accumulated sleep — past the 300 s budget — with no budget check. -/
theorem c6_no_wake_budget_check_witness :
    should_force_sleep 303 = true ∧
    (((send_message ⟨fun _ => true, fun _ => 5, fun _ => false⟩
        (mkModem false) ['x'] 3).2.2.take 8).map sleepDuration).sum = 303 ∧
    (send_message ⟨fun _ => true, fun _ => 5, fun _ => false⟩
        (mkModem false) ['x'] 3).2.2.getD 8 (SatEvent.sleepSec 0) =
      SatEvent.backoffSleep 15 ∧
    (send_message ⟨fun _ => true, fun _ => 5, fun _ => false⟩
        (mkModem false) ['x'] 3).1.error = "RockBlock reported send failure" :=
  have h := c6_no_wake_budget_check ⟨fun _ => true, fun _ => 5, fun _ => false⟩ ['x']
    (by decide) (by decide) rfl (fun _ => by norm_num) (fun _ => rfl)
  ⟨h.2.2.2.1, h.2.2.1, h.2.2.2.2.1, h.2.2.2.2.2⟩

/-- Counterexample to C6 as stated: the attempt loop performs no
elapsed-wake-time check — with 303 s of sleep already accumulated
(exceeding the 300 s budget `should_force_sleep` encodes), it still
commits to the 15-minute backoff and finally reports the plain
send-failure error rather than a time-budget-exceeded failure. -/
theorem c6_no_wake_budget_counterexample :
    (((send_message ⟨fun _ => true, fun _ => 5, fun _ => false⟩
        (mkModem false) ['x'] 3).2.2.take 8).map sleepDuration).sum = 303 ∧
    should_force_sleep 303 = true ∧
    (send_message ⟨fun _ => true, fun _ => 5, fun _ => false⟩
        (mkModem false) ['x'] 3).2.2.getD 8 (SatEvent.sleepSec 0) =
      SatEvent.backoffSleep 15 := by
  refine ⟨by decide, ?_, by decide⟩
  simp [should_force_sleep]
  norm_num

/-! ### Claim C7 -/

/-- One refused attempt (link initialized, good signal, send refused):
the loop records the failure error, takes the scheduled backoff when more
attempts remain, and continues. -/
theorem sendAttempts_step_refused (env : LinkEnv) (msg : PyStr)
    (maxA r i a b c : Nat) (le : String)
    (hq0 : ¬ (env.quality b < 1)) (hs0 : env.sendOk c = false) :
    sendAttempts env msg maxA (r + 1) i ⟨true, a, b, c⟩ le =
      ((sendAttempts env msg maxA r (i + 1) ⟨true, a, b + 1, c + 1⟩
          "RockBlock reported send failure").1,
        (sendAttempts env msg maxA r (i + 1) ⟨true, a, b + 1, c + 1⟩
          "RockBlock reported send failure").2.1,
        [SatEvent.qualityCheck (env.quality b), SatEvent.send msg false] ++
          (if i + 1 < maxA then
            [SatEvent.backoffSleep (RETRY_BACKOFF_MINUTES.getD
              (min i (RETRY_BACKOFF_MINUTES.length - 1)) 0)]
           else []) ++
          (sendAttempts env msg maxA r (i + 1) ⟨true, a, b + 1, c + 1⟩
            "RockBlock reported send failure").2.2) := by
  simp only [sendAttempts, get_signal_quality, queryQuality, doSend, hq0, hs0,
    Bool.false_eq_true, if_false, if_true, ↓reduceIte]
  simp

/-- One confirmed attempt: the loop returns success with the 1-based
attempt count immediately, with no further events. -/
theorem sendAttempts_step_success (env : LinkEnv) (msg : PyStr)
    (maxA r i a b c : Nat) (le : String)
    (hq0 : ¬ (env.quality b < 1)) (hs0 : env.sendOk c = true) :
    sendAttempts env msg maxA (r + 1) i ⟨true, a, b, c⟩ le =
      (⟨true, i + 1, ""⟩, ⟨true, a, b + 1, c + 1⟩,
        [SatEvent.qualityCheck (env.quality b), SatEvent.send msg true]) := by
  simp only [sendAttempts, get_signal_quality, queryQuality, doSend, hq0, hs0,
    Bool.false_eq_true, if_false, if_true, ↓reduceIte]
  simp

/-- C7, confirmed.  With the link initialized and signal quality always
acceptable: if every send is refused, `send_data_reading` (which wraps
`send_message` with `MAX_RETRY_ATTEMPTS = 3`) returns
`success = false, attempts = 3`, performs exactly 3 sends (never a 4th),
and carries the last observed error text together with the last observed
signal quality (the fresh post-loop observation); conversely, the first
confirmed send ends the loop with success and the 1-based attempt count
at which it succeeded. -/
theorem c7_retry_exhaustion_and_first_success (env : LinkEnv) (msg : PyStr)
    (hne : msg ≠ []) (hshort : ¬ (340 < encodedLen msg))
    (hq : ∀ n, 1 ≤ env.quality n) :
    ((∀ n, env.sendOk n = false) →
      (send_data_reading env (mkModem true) msg).1 =
        ⟨false, 3, "RockBlock reported send failure", env.quality 3⟩ ∧
      (send_data_reading env (mkModem true) msg).2.2.countP isSendEv = 3 ∧
      lastQuality (send_data_reading env (mkModem true) msg).2.2 =
        some ((send_data_reading env (mkModem true) msg).1.signal_quality)) ∧
    (∀ k : Nat, k < 3 → (∀ j, j < k → env.sendOk j = false) →
      env.sendOk k = true →
      (send_message env (mkModem true) msg 3).1.success = true ∧
      (send_message env (mkModem true) msg 3).1.attempts = k + 1) := by
  have hsm : send_message env (mkModem true) msg 3 =
      sendAttempts env msg 3 3 0 (mkModem true) "" := by
    simp [send_message, hne, truncate_340, hshort]
  constructor
  · intro hsend
    have hmain := sendAttempts_all_refused env msg 3 hq hsend 3 0 (mkModem true) ""
      rfl rfl rfl
    have hsdr : send_data_reading env (mkModem true) msg =
        (⟨false, 3, "RockBlock reported send failure", env.quality 3⟩,
          ⟨true, 0, 4, 3⟩,
          [SatEvent.qualityCheck (env.quality 0), SatEvent.send msg false,
           SatEvent.backoffSleep 5,
           SatEvent.qualityCheck (env.quality 1), SatEvent.send msg false,
           SatEvent.backoffSleep 15,
           SatEvent.qualityCheck (env.quality 2), SatEvent.send msg false,
           SatEvent.qualityCheck (env.quality 3)]) := by
      simp only [send_data_reading, MAX_RETRY_ATTEMPTS]
      rw [hsm, hmain]
      simp [get_signal_quality, queryQuality, List.range', RETRY_BACKOFF_MINUTES,
        List.getD, mkModem]
    rw [hsdr]
    refine ⟨rfl, ?_, ?_⟩
    · simp [List.countP_cons, isSendEv]
    · simp [lastQuality, List.filterMap]
  · intro k hk hbefore hlast
    rw [hsm]
    have hmk : (mkModem true) = (⟨true, 0, 0, 0⟩ : ModemState) := rfl
    rw [hmk]
    interval_cases k
    · have h := sendAttempts_step_success env msg 3 2 0 0 0 0 ""
        (not_lt.mpr (hq 0)) hlast
      norm_num at h
      rw [h]
      exact ⟨rfl, rfl⟩
    · have h0 := sendAttempts_step_refused env msg 3 2 0 0 0 0 ""
        (not_lt.mpr (hq 0)) (hbefore 0 (by norm_num))
      have h1 := sendAttempts_step_success env msg 3 1 1 0 1 1
        "RockBlock reported send failure" (not_lt.mpr (hq 1)) hlast
      norm_num at h0 h1
      rw [h0, h1]
      exact ⟨rfl, rfl⟩
    · have h0 := sendAttempts_step_refused env msg 3 2 0 0 0 0 ""
        (not_lt.mpr (hq 0)) (hbefore 0 (by norm_num))
      have h1 := sendAttempts_step_refused env msg 3 1 1 0 1 1
        "RockBlock reported send failure" (not_lt.mpr (hq 1)) (hbefore 1 (by norm_num))
      have h2 := sendAttempts_step_success env msg 3 0 2 0 2 2
        "RockBlock reported send failure" (not_lt.mpr (hq 2)) hlast
      norm_num at h0 h1 h2
      rw [h0, h1, h2]
      exact ⟨rfl, rfl⟩

/-- Witness for C7: an always-refusing link yields failure after exactly
3 sends with the last observed error and signal quality; an immediately
confirming link succeeds on attempt 1. -/
theorem c7_retry_exhaustion_witness :
    ((send_data_reading ⟨fun _ => true, fun _ => 4, fun _ => false⟩
        (mkModem true) ['x']).1 =
      ⟨false, 3, "RockBlock reported send failure", 4⟩ ∧
     (send_data_reading ⟨fun _ => true, fun _ => 4, fun _ => false⟩
        (mkModem true) ['x']).2.2.countP isSendEv = 3) ∧
    ((send_message ⟨fun _ => true, fun _ => 4, fun _ => true⟩
        (mkModem true) ['x'] 3).1.success = true ∧
     (send_message ⟨fun _ => true, fun _ => 4, fun _ => true⟩
        (mkModem true) ['x'] 3).1.attempts = 1) :=
  ⟨⟨((c7_retry_exhaustion_and_first_success ⟨fun _ => true, fun _ => 4, fun _ => false⟩
        ['x'] (by decide) (by decide) (fun _ => by norm_num)).1 (fun _ => rfl)).1,
    ((c7_retry_exhaustion_and_first_success ⟨fun _ => true, fun _ => 4, fun _ => false⟩
        ['x'] (by decide) (by decide) (fun _ => by norm_num)).1 (fun _ => rfl)).2.1⟩,
    (c7_retry_exhaustion_and_first_success ⟨fun _ => true, fun _ => 4, fun _ => true⟩
        ['x'] (by decide) (by decide) (fun _ => by norm_num)).2 0 (by norm_num)
      (fun j hj => absurd hj (Nat.not_lt_zero j)) rfl⟩
